import Mathlib

/-!
Shallow embedding of the Instagram post scheduler's publish pipeline.

The source under verification:
  * `postToInstagram` (three-phase carousel publish orchestration with
    credential validation, truncation to 10 images, per-image container
    creation, carousel grouping, and publish with bounded retry/backoff),
  * `createCarousel` (cover / content slides / CTA image production),
  * `ContentService.markPostAsPublished` (schedule bookkeeping).

Network traffic and timer waits are captured as an explicit event trace;
the platform's responses are supplied by an oracle (`Platform`) indexed by
the per-phase call count, which is faithful because the source issues all
calls strictly sequentially.
-/

namespace Insta

/-- JavaScript truthiness of an optional string: `undefined` and the empty
string are both falsy (`!accessToken` in the source). -/
def present : Option String → Bool
  | none => false
  | some s => !s.isEmpty

/-- Environment credentials read from `process.env`. -/
structure Env where
  accessToken : Option String
  igBusinessId : Option String
  deriving Repr, DecidableEq

/-- The `data` object of a platform response; `id` is `none` when the
payload is missing or carries no `id` field. -/
structure RespData where
  id : Option String
  deriving Repr, DecidableEq

/-- An axios-style error: `apiMessage` models
`error.response?.data?.error?.message`, `message` models `error.message`. -/
structure ApiError where
  apiMessage : Option String
  message : String
  deriving Repr, DecidableEq

/-- The message the source reports:
`error.response?.data?.error?.message || error.message`. -/
def ApiError.effMsg (e : ApiError) : String :=
  e.apiMessage.getD e.message

/-- JavaScript `s.includes(pat)`: `pat` occurs contiguously in `s`. -/
def strIncludes (s pat : String) : Bool :=
  (List.range (s.data.length + 1)).any fun i => pat.data.isPrefixOf (s.data.drop i)

/-- Transient-error test of the source: either message contains the
substring `"unknown error"`. -/
def isUnknownError (e : ApiError) : Bool :=
  (match e.apiMessage with
   | some m => strIncludes m "unknown error"
   | none => false)
  || strIncludes e.message "unknown error"

/-- Oracle for the platform's responses, indexed by per-phase call count
(the source makes all calls sequentially, so the call index determines the
request). -/
structure Platform where
  containerResp : Nat → Except ApiError RespData
  carouselResp : Except ApiError RespData
  publishResp : Nat → Except ApiError RespData

/-- Observable step of the pipeline: a timer wait, the truncation warning,
or one of the three kinds of outgoing API calls. -/
inductive Event where
  | wait (ms : ℚ)
  | truncWarn (origCount : Nat)
  | createContainerCall (imageUrl : String)
  | createCarouselCall (children : String) (caption : String)
  | publishCall (creationId : String)
  deriving Repr, DecidableEq

/-- Phase-1 container-creation call? -/
def Event.isP1 : Event → Bool
  | .createContainerCall _ => true
  | _ => false

/-- Phase-2 carousel-creation call? -/
def Event.isP2 : Event → Bool
  | .createCarouselCall _ _ => true
  | _ => false

/-- Phase-3 publish call? -/
def Event.isP3 : Event → Bool
  | .publishCall _ => true
  | _ => false

/-- Any outgoing API call (wait and warning events excluded)? -/
def Event.isCall : Event → Bool
  | .createContainerCall _ => true
  | .createCarouselCall _ _ => true
  | .publishCall _ => true
  | _ => false

/-- The record returned on success:
`{success, postId, containerIds, carouselContainerId}`. -/
structure PublishResult where
  success : Bool
  postId : Option String
  containerIds : List String
  carouselContainerId : String
  deriving Repr, DecidableEq

/-- Phase 1 of `postToInstagram`: one container-creation call per image URL,
a 1000 ms wait before every call but the first, ids collected in order;
the first failure aborts with a message naming the 1-based image index. -/
def phase1 (plat : Platform) : List String → Nat → List Event × Except String (List String)
  | [], _ => ([], .ok [])
  | url :: rest, i =>
    let pre : List Event := if i > 0 then [.wait 1000] else []
    let evs := pre ++ [Event.createContainerCall url]
    match plat.containerResp i with
    | .error e =>
        (evs, .error ("Failed to create container " ++ toString (i + 1) ++ ": " ++ e.effMsg))
    | .ok d =>
        match d.id with
        | none =>
            (evs, .error ("Failed to create container " ++ toString (i + 1) ++
              ": Failed to create media container for URL: " ++ url))
        | some cid =>
            let r := phase1 plat rest (i + 1)
            (evs ++ r.1, r.2.map (cid :: ·))

/-- Decidable equality for `Except`, needed to evaluate results. -/
instance {ε α : Type} [DecidableEq ε] [DecidableEq α] : DecidableEq (Except ε α) := fun x y =>
  match x, y with
  | .error a, .error b =>
      if h : a = b then .isTrue (by rw [h]) else .isFalse (by simp [h])
  | .error _, .ok _ => .isFalse (by simp)
  | .ok _, .error _ => .isFalse (by simp)
  | .ok a, .ok b =>
      if h : a = b then .isTrue (by rw [h]) else .isFalse (by simp [h])

/-- The retry loop of phase 3, structurally recursive on the remaining
retry budget `left = maxRetries - retryCount` (the source recursion is
guarded by `retryCount < maxRetries`, i.e. `left > 0`): wait `delayMs`,
attempt the publish call; on an "unknown error" failure with budget left,
recurse with the delay multiplied by 1.5; otherwise surface the error. -/
def attemptPublishLoop (plat : Platform) (cid : String) :
    Nat → Nat → ℚ → List Event × Except ApiError RespData
  | left, retryCount, delayMs =>
    let evs : List Event := [.wait delayMs, .publishCall cid]
    match plat.publishResp retryCount with
    | .ok d => (evs, .ok d)
    | .error e =>
        match left with
        | 0 => (evs, .error e)
        | left' + 1 =>
            if isUnknownError e then
              let r := attemptPublishLoop plat cid left' (retryCount + 1) (delayMs * (3 / 2))
              (evs ++ r.1, r.2)
            else (evs, .error e)

/-- Phase 3 of `postToInstagram`: `attemptPublish(retryCount, maxRetries,
delayMs)` of the source, with the remaining budget made explicit. -/
def attemptPublish (plat : Platform) (cid : String) (retryCount maxRetries : Nat)
    (delayMs : ℚ) : List Event × Except ApiError RespData :=
  attemptPublishLoop plat cid (maxRetries - retryCount) retryCount delayMs

/-- Effective caption: `enhancedCaption || caption` with JavaScript
falsiness (an empty enhanced caption falls back to the plain caption). -/
def effCaption (caption : String) (enhancedCaption : Option String) : String :=
  match enhancedCaption with
  | some c => if c.isEmpty then caption else c
  | none => caption

/-- Steps 1–3 of `postToInstagram` on the (possibly already truncated)
URL list: sequential container creation, carousel grouping with a 2000 ms
wait on success, then publish with retry. -/
def postBody (plat : Platform) (caption : String) (urls : List String)
    (enhancedCaption : Option String) : List Event × Except String PublishResult :=
  let p1 := phase1 plat urls 0
  match p1.2 with
  | .error msg => (p1.1, .error msg)
  | .ok containerIds =>
      if containerIds.length == 0 then
        (p1.1, .error "Failed to create any media containers")
      else
        let children := String.intercalate "," containerIds
        let ev2 := Event.createCarouselCall children (effCaption caption enhancedCaption)
        match plat.carouselResp with
        | .error e =>
            (p1.1 ++ [ev2],
             .error ("Failed to create carousel container: " ++ e.effMsg))
        | .ok d =>
            match d.id with
            | none =>
                (p1.1 ++ [ev2],
                 .error "Failed to create carousel container: Failed to create carousel container")
            | some ccid =>
                let p3 := attemptPublish plat ccid 0 3 5000
                let evs := p1.1 ++ [ev2, Event.wait 2000] ++ p3.1
                match p3.2 with
                | .ok pd =>
                    (evs, .ok { success := true, postId := pd.id,
                                containerIds := containerIds,
                                carouselContainerId := ccid })
                | .error e =>
                    (evs, .error ("Failed to publish carousel after multiple attempts: "
                      ++ e.effMsg))

/-- The publish orchestrator `postToInstagram(caption, mediaUrls,
enhancedCaption?)`: credential and emptiness validation, truncation to the
first 10 URLs with a warning, then the three protocol phases. Returns the
event trace together with either the success record or the thrown error's
message. -/
def postToInstagram (env : Env) (plat : Platform) (caption : String)
    (mediaUrls : List String) (enhancedCaption : Option String) :
    List Event × Except String PublishResult :=
  if !(present env.accessToken) || !(present env.igBusinessId) then
    ([], .error "Missing Instagram credentials in environment variables")
  else if mediaUrls.length == 0 then
    ([], .error "No media URLs provided for Instagram post")
  else
    let warnEvs : List Event :=
      if mediaUrls.length > 10 then [.truncWarn mediaUrls.length] else []
    let urls := if mediaUrls.length > 10 then mediaUrls.take 10 else mediaUrls
    let r := postBody plat caption urls enhancedCaption
    (warnEvs ++ r.1, r.2)

/-! ### Carousel renderer (`carousel.service.ts`) -/

/-- A slide to render and upload: the cover (from the title), one content
slide per input string (with 1-based number and total count), or the CTA
slide (with the total content-slide count). -/
inductive SlideSpec where
  | cover (title : String)
  | content (text : String) (number total : Nat)
  | ctaSlide (text : String) (total : Nat)
  deriving Repr, DecidableEq

/-- The content-slide loop of `createCarousel`: render and upload slide
`i+1` of `total`, in input order, collecting the returned URLs. -/
def contentUploads (upload : SlideSpec → Except String String) :
    List String → Nat → Nat → Except String (List String)
  | [], _, _ => .ok []
  | s :: rest, total, i => do
      let u ← upload (.content s (i + 1) total)
      let us ← contentUploads upload rest total (i + 1)
      return u :: us

/-- `createCarousel(title, slides, cta)`: upload the cover, then one image
per content slide in order, then the CTA image; any failure is wrapped as
`Failed to create carousel: <message>`. The `upload` oracle stands for
rendering plus `uploadToCloudinaryOrLocal`. -/
def createCarousel (upload : SlideSpec → Except String String) (title : String)
    (slides : List String) (cta : String) : Except String (List String) :=
  let run : Except String (List String) := do
    let coverUrl ← upload (.cover title)
    let slideUrls ← contentUploads upload slides slides.length 0
    let ctaUrl ← upload (.ctaSlide cta slides.length)
    return coverUrl :: slideUrls ++ [ctaUrl]
  match run with
  | .ok l => .ok l
  | .error m => .error ("Failed to create carousel: " ++ m)

/-! ### Content schedule store (`content.service.ts`) -/

/-- The text content of one scheduled post. -/
structure PostContent where
  title : String
  slides : List String
  cta : String
  caption : String
  deriving Repr, DecidableEq

/-- One entry of the content schedule. -/
structure ScheduledPost where
  id : String
  date : String
  time : String
  type : String
  category : String
  status : String
  content : PostContent
  deriving Repr, DecidableEq

/-- Metadata block of the schedule file. -/
structure ScheduleMetadata where
  weekStartDate : String
  weekEndDate : String
  createdAt : String
  updatedAt : String
  totalPosts : Nat
  deriving Repr, DecidableEq

/-- The persisted content schedule. -/
structure ContentSchedule where
  metadata : ScheduleMetadata
  schedule : List ScheduledPost
  deriving Repr, DecidableEq

/-- `saveContentSchedule()`: refresh `metadata.updatedAt` to the current
time (`now` stands for `new Date().toISOString()`), then write the schedule
to the JSON file; the in-memory state after the call is the refreshed
schedule. -/
def saveContentSchedule (cs : ContentSchedule) (now : String) : ContentSchedule :=
  { cs with metadata := { cs.metadata with updatedAt := now } }

/-- `markPostAsPublished(postId)`: find the first post with the given id;
if none (or no schedule is loaded) return `false` without saving; otherwise
set exactly that post's `status` to `"published"` and save (which also
refreshes `metadata.updatedAt` to `now`). Returns (returned boolean,
schedule state afterwards, whether a save was written). -/
def markPostAsPublished (st : Option ContentSchedule) (postId : String) (now : String) :
    Bool × Option ContentSchedule × Bool :=
  match st with
  | none => (false, none, false)
  | some cs =>
      match cs.schedule.findIdx? (fun post => post.id == postId) with
      | none => (false, some cs, false)
      | some j =>
          let updated :=
            { cs with schedule := cs.schedule.modify (fun p => { p with status := "published" }) j }
          (true, some (saveContentSchedule updated now), true)

/-- The trace phase 1 produces when every container creation succeeds:
a 1000 ms wait before every call but the very first, then the call. -/
def phase1OkEvents : List String → Nat → List Event
  | [], _ => []
  | u :: rest, i =>
      (if i > 0 then [Event.wait 1000] else []) ++ [Event.createContainerCall u]
        ++ phase1OkEvents rest (i + 1)

/-- A platform whose calls all succeed, numbering container ids. -/
def okPlat : Platform where
  containerResp := fun i => .ok ⟨some ("id" ++ toString (i + 1))⟩
  carouselResp := .ok ⟨some "cid"⟩
  publishResp := fun _ => .ok ⟨some "pid"⟩

/-- A transient publish error, classified retryable by the source. -/
def transientErr : ApiError := ⟨some "an unknown error occurred", "request failed"⟩

/-- A permanent publish error, not classified retryable. -/
def permanentErr : ApiError := ⟨some "invalid parameter", "request failed"⟩

/-- A platform whose publish calls fail transiently until attempt 3. -/
def retryPlat : Platform where
  containerResp := fun _ => .ok ⟨some "x"⟩
  carouselResp := .ok ⟨some "cid"⟩
  publishResp := fun j => if j < 3 then .error transientErr else .ok ⟨some "pid"⟩

/-- A platform whose publish calls always fail transiently. -/
def exhaustPlat : Platform where
  containerResp := fun _ => .ok ⟨some "x"⟩
  carouselResp := .ok ⟨some "cid"⟩
  publishResp := fun _ => .error transientErr

/-- A platform whose first publish call fails permanently. -/
def fatalPlat : Platform where
  containerResp := fun _ => .ok ⟨some "x"⟩
  carouselResp := .ok ⟨some "cid"⟩
  publishResp := fun _ => .error permanentErr

/-- A platform whose second container creation fails. -/
def failPlat : Platform where
  containerResp := fun i => if i = 1 then .error ⟨some "boom", "axios bad"⟩ else .ok ⟨some "x"⟩
  carouselResp := .ok ⟨some "cid"⟩
  publishResp := fun _ => .ok ⟨some "pid"⟩

/-! ### Helper lemmas: phase 3 (`attemptPublish`) -/

/-- One-step unfolding of `attemptPublish`. -/
lemma attemptPublish_eq (plat : Platform) (cid : String) (r m : Nat) (d : ℚ) :
    attemptPublish plat cid r m d =
      match plat.publishResp r with
      | .ok dta => ([.wait d, .publishCall cid], .ok dta)
      | .error e =>
          if r < m ∧ isUnknownError e = true then
            ([.wait d, .publishCall cid] ++ (attemptPublish plat cid (r + 1) m (d * (3 / 2))).1,
             (attemptPublish plat cid (r + 1) m (d * (3 / 2))).2)
          else
            ([.wait d, .publishCall cid], .error e) := by
  unfold attemptPublish
  rw [attemptPublishLoop]
  cases hr : plat.publishResp r with
  | ok dta => simp
  | error e =>
      cases hm : m - r with
      | zero =>
          have hng : ¬(r < m ∧ isUnknownError e = true) := by omega
          simp [hng]
      | succ budget =>
          by_cases hu : isUnknownError e = true
          · have hrm : r < m := by omega
            have hb : m - (r + 1) = budget := by omega
            simp [hu, hrm, hb, attemptPublish]
          · have hng : ¬(r < m ∧ isUnknownError e = true) := by tauto
            simp [hu, hng]

/-- A successful response ends phase 3 immediately. -/
lemma attemptPublish_ok_resp (plat : Platform) (cid : String) (r m : Nat) (d : ℚ)
    (dta : RespData) (h : plat.publishResp r = .ok dta) :
    attemptPublish plat cid r m d = ([.wait d, .publishCall cid], .ok dta) := by
  rw [attemptPublish_eq, h]

/-- A transient failure with retries left recurses with the delay grown by 1.5. -/
lemma attemptPublish_retry (plat : Platform) (cid : String) (r m : Nat) (d : ℚ)
    (e : ApiError) (h : plat.publishResp r = .error e) (h1 : r < m)
    (h2 : isUnknownError e = true) :
    attemptPublish plat cid r m d =
      ([.wait d, .publishCall cid] ++ (attemptPublish plat cid (r + 1) m (d * (3 / 2))).1,
       (attemptPublish plat cid (r + 1) m (d * (3 / 2))).2) := by
  rw [attemptPublish_eq, h]
  simp [h1, h2]

/-- A non-transient failure, or an exhausted budget, surfaces the error. -/
lemma attemptPublish_halt (plat : Platform) (cid : String) (r m : Nat) (d : ℚ)
    (e : ApiError) (h : plat.publishResp r = .error e)
    (h2 : ¬(r < m ∧ isUnknownError e = true)) :
    attemptPublish plat cid r m d = ([.wait d, .publishCall cid], .error e) := by
  rw [attemptPublish_eq, h]
  simp only [if_neg h2]

/-! ### Helper lemmas: phase 1 (`phase1`) -/

/-- When the oracle returns an id for every image, phase 1 returns the ids
in input order together with the expected trace. -/
lemma phase1_ok (plat : Platform) (ids : Nat → String) :
    ∀ (urls : List String) (i : Nat),
      (∀ j, j < urls.length → plat.containerResp (i + j) = .ok ⟨some (ids (i + j))⟩) →
      phase1 plat urls i =
        (phase1OkEvents urls i, .ok ((List.range urls.length).map fun j => ids (i + j))) := by
  intro urls
  induction urls with
  | nil => intro i _; simp [phase1, phase1OkEvents]
  | cons u rest ih =>
      intro i h
      have h0 : plat.containerResp i = .ok ⟨some (ids i)⟩ := by
        have := h 0 (by simp)
        simpa using this
      have hrec := ih (i + 1) (fun j hj => by
        have hj1 := h (j + 1) (by simpa using Nat.succ_lt_succ hj)
        have harith : i + 1 + j = i + (j + 1) := by omega
        rw [harith]
        exact hj1)
      simp only [phase1, h0, hrec]
      refine Prod.ext rfl ?_
      simp only [Except.map, List.length_cons, List.range_succ_eq_map, List.map_cons,
        List.map_map, Function.comp_def]
      refine congrArg Except.ok (congrArg (List.cons (ids i)) ?_)
      exact List.map_congr_left fun x _ => congrArg ids (by omega)

/-- The per-call trace of the all-success phase-1 run, restricted to API
calls, is exactly one container-creation call per URL, in input order. -/
lemma phase1OkEvents_filter_isCall :
    ∀ (urls : List String) (i : Nat),
      (phase1OkEvents urls i).filter Event.isCall = urls.map Event.createContainerCall := by
  intro urls
  induction urls with
  | nil => intro i; simp [phase1OkEvents]
  | cons u rest ih =>
      intro i
      by_cases hi : i > 0 <;>
        simp [phase1OkEvents, hi, List.filter_append, Event.isCall, ih (i + 1)]

/-- Every event phase 1 emits is either the inter-call wait or a
container-creation call for one of the input URLs. -/
lemma phase1_mem (plat : Platform) :
    ∀ (urls : List String) (i : Nat) (e : Event), e ∈ (phase1 plat urls i).1 →
      e = Event.wait 1000 ∨ ∃ u, u ∈ urls ∧ e = Event.createContainerCall u := by
  intro urls
  induction urls with
  | nil => intro i e he; simp [phase1] at he
  | cons u rest ih =>
      intro i e he
      cases hc : plat.containerResp i with
      | error err =>
          simp only [phase1, hc] at he
          rcases List.mem_append.mp he with hpre | hcall
          · left
            by_cases hi : i > 0 <;> simp [hi] at hpre
            exact hpre
          · right
            exact ⟨u, by simp, by simpa using hcall⟩
      | ok d =>
          cases hd : d.id with
          | none =>
              simp only [phase1, hc, hd] at he
              rcases List.mem_append.mp he with hpre | hcall
              · left
                by_cases hi : i > 0 <;> simp [hi] at hpre
                exact hpre
              · right
                exact ⟨u, by simp, by simpa using hcall⟩
          | some cid =>
              simp only [phase1, hc, hd] at he
              rcases List.mem_append.mp he with hfst | hrest
              · rcases List.mem_append.mp hfst with hpre | hcall
                · left
                  by_cases hi : i > 0 <;> simp [hi] at hpre
                  exact hpre
                · right
                  exact ⟨u, by simp, by simpa using hcall⟩
              · rcases ih (i + 1) e hrest with hw | ⟨u', hu', he'⟩
                · exact Or.inl hw
                · exact Or.inr ⟨u', by simp [hu'], he'⟩

/-- If the first `t` container creations succeed and creation `t` (0-based)
fails with `e`, phase 1 aborts with the message naming 1-based image index
`i + t + 1` and carrying the platform's effective message. -/
lemma phase1_error (plat : Platform) (e : ApiError) :
    ∀ (urls : List String) (i t : Nat), t < urls.length →
      (∀ j, j < t → ∃ cid, plat.containerResp (i + j) = .ok ⟨some cid⟩) →
      plat.containerResp (i + t) = .error e →
      (phase1 plat urls i).2 =
        .error ("Failed to create container " ++ toString (i + t + 1) ++ ": " ++ e.effMsg) := by
  intro urls
  induction urls with
  | nil => intro i t ht; simp at ht
  | cons u rest ih =>
      intro i t ht hok herr
      cases t with
      | zero =>
          have h0 : plat.containerResp i = .error e := by simpa using herr
          simp [phase1, h0]
      | succ t' =>
          obtain ⟨cid, h0⟩ : ∃ cid, plat.containerResp i = .ok ⟨some cid⟩ := by
            have := hok 0 (Nat.succ_pos t')
            simpa using this
          have hrec := ih (i + 1) t' (by simpa using Nat.lt_of_succ_lt_succ ht)
            (fun j hj => by
              obtain ⟨cid', hc⟩ := hok (j + 1) (Nat.succ_lt_succ hj)
              exact ⟨cid', by rw [show i + 1 + j = i + (j + 1) by omega]; exact hc⟩)
            (by rw [show i + 1 + t' = i + (t' + 1) by omega]; exact herr)
          have harith : i + 1 + t' + 1 = i + (t' + 1) + 1 := by omega
          simp only [phase1, h0, hrec]
          rw [harith] at hrec
          simp [hrec, Except.map]
          rw [show i + (t' + 1) + 1 = i + 1 + t' + 1 by omega]

/-- Any error phase 1 surfaces begins with `Failed to create container `. -/
lemma phase1_error_shape (plat : Platform) :
    ∀ (urls : List String) (i : Nat) (msg : String),
      (phase1 plat urls i).2 = .error msg →
      ∃ s, msg = "Failed to create container " ++ s := by
  intro urls
  induction urls with
  | nil => intro i msg h; simp [phase1] at h
  | cons u rest ih =>
      intro i msg h
      cases hc : plat.containerResp i with
      | error err =>
          simp only [phase1, hc] at h
          refine ⟨toString (i + 1) ++ ": " ++ err.effMsg, ?_⟩
          simp only [Except.error.injEq] at h
          rw [← h]
          simp [String.append_assoc]
      | ok d =>
          cases hd : d.id with
          | none =>
              simp only [phase1, hc, hd] at h
              refine ⟨toString (i + 1) ++ ": Failed to create media container for URL: " ++ u, ?_⟩
              simp only [Except.error.injEq] at h
              rw [← h]
              simp [String.append_assoc]
          | some cid =>
              simp only [phase1, hc, hd] at h
              cases hr : (phase1 plat rest (i + 1)).2 with
              | error msg' =>
                  rw [hr] at h
                  simp [Except.map] at h
                  exact h ▸ ih (i + 1) msg' hr
              | ok l => rw [hr] at h; simp [Except.map] at h

/-- Phase 3 makes between `1` and `m - r + 1` publish calls, all for the
same carousel container id. -/
lemma attemptPublish_filter_isCall (plat : Platform) (cid : String) :
    ∀ (fuel r m : Nat) (d : ℚ), m - r ≤ fuel →
      ∃ k, k ≤ m - r ∧
        (attemptPublish plat cid r m d).1.filter Event.isCall =
          List.replicate (k + 1) (Event.publishCall cid) := by
  intro fuel
  induction fuel with
  | zero =>
      intro r m d hf
      cases hr : plat.publishResp r with
      | ok dta =>
          refine ⟨0, Nat.zero_le _, ?_⟩
          rw [attemptPublish_ok_resp plat cid r m d dta hr]
          simp [Event.isCall, List.replicate]
      | error e =>
          refine ⟨0, Nat.zero_le _, ?_⟩
          have hstop : ¬(r < m ∧ isUnknownError e = true) := by omega
          rw [attemptPublish_halt plat cid r m d e hr hstop]
          simp [Event.isCall, List.replicate]
  | succ n ih =>
      intro r m d hf
      cases hr : plat.publishResp r with
      | ok dta =>
          refine ⟨0, Nat.zero_le _, ?_⟩
          rw [attemptPublish_ok_resp plat cid r m d dta hr]
          simp [Event.isCall, List.replicate]
      | error e =>
          by_cases hg : r < m ∧ isUnknownError e = true
          · obtain ⟨k', hk', hfil⟩ := ih (r + 1) m (d * (3 / 2)) (by omega)
            refine ⟨k' + 1, by omega, ?_⟩
            rw [attemptPublish_retry plat cid r m d e hr hg.1 hg.2]
            simp only [List.filter_append, hfil]
            simp [Event.isCall, List.replicate]
          · refine ⟨0, Nat.zero_le _, ?_⟩
            rw [attemptPublish_halt plat cid r m d e hr hg]
            simp [Event.isCall, List.replicate]

/-- Every event phase 3 emits is a wait or a publish call for `cid`. -/
lemma attemptPublish_mem (plat : Platform) (cid : String) :
    ∀ (fuel r m : Nat) (d : ℚ), m - r ≤ fuel →
      ∀ e ∈ (attemptPublish plat cid r m d).1,
        (∃ q, e = Event.wait q) ∨ e = Event.publishCall cid := by
  intro fuel
  induction fuel with
  | zero =>
      intro r m d hf e he
      cases hr : plat.publishResp r with
      | ok dta =>
          rw [attemptPublish_ok_resp plat cid r m d dta hr] at he
          simp at he
          rcases he with h | h
          · exact Or.inl ⟨d, h⟩
          · exact Or.inr h
      | error err =>
          have hstop : ¬(r < m ∧ isUnknownError err = true) := by omega
          rw [attemptPublish_halt plat cid r m d err hr hstop] at he
          simp at he
          rcases he with h | h
          · exact Or.inl ⟨d, h⟩
          · exact Or.inr h
  | succ n ih =>
      intro r m d hf e he
      cases hr : plat.publishResp r with
      | ok dta =>
          rw [attemptPublish_ok_resp plat cid r m d dta hr] at he
          simp at he
          rcases he with h | h
          · exact Or.inl ⟨d, h⟩
          · exact Or.inr h
      | error err =>
          by_cases hg : r < m ∧ isUnknownError err = true
          · rw [attemptPublish_retry plat cid r m d err hr hg.1 hg.2] at he
            rcases List.mem_append.mp he with hfst | hrest
            · simp at hfst
              rcases hfst with h | h
              · exact Or.inl ⟨d, h⟩
              · exact Or.inr h
            · exact ih (r + 1) m (d * (3 / 2)) (by omega) e hrest
          · rw [attemptPublish_halt plat cid r m d err hr hg] at he
            simp at he
            rcases he with h | h
            · exact Or.inl ⟨d, h⟩
            · exact Or.inr h

/-- If the first `k` responses are transient failures and response `k`
succeeds (within the budget), phase 3 returns that success. -/
lemma attemptPublish_ok (plat : Platform) (cid : String) (dta : RespData) :
    ∀ (k r m : Nat) (d : ℚ), r + k ≤ m →
      plat.publishResp (r + k) = .ok dta →
      (∀ j, j < k → ∃ e, plat.publishResp (r + j) = .error e ∧ isUnknownError e = true) →
      (attemptPublish plat cid r m d).2 = .ok dta := by
  intro k
  induction k with
  | zero =>
      intro r m d _ hok _
      rw [attemptPublish_ok_resp plat cid r m d dta (by simpa using hok)]
  | succ k' ih =>
      intro r m d hb hok htr
      obtain ⟨e, he, hue⟩ := htr 0 (Nat.succ_pos k')
      rw [Nat.add_zero] at he
      rw [attemptPublish_retry plat cid r m d e he (by omega) hue]
      exact ih (r + 1) m (d * (3 / 2)) (by omega)
        (by rw [show r + 1 + k' = r + (k' + 1) by omega]; exact hok)
        (fun j hj => by
          obtain ⟨e', he', hue'⟩ := htr (j + 1) (Nat.succ_lt_succ hj)
          exact ⟨e', by rw [show r + 1 + j = r + (j + 1) by omega]; exact he', hue'⟩)

/-! ### Helper lemmas: the orchestrator -/

/-- When phase 1 succeeds for every image and phase 2 returns a carousel
id, the body runs all three phases: the trace is the phase-1 trace, the
carousel call, the 2000 ms wait, then the phase-3 trace, and the outcome is
decided by phase 3. -/
lemma postBody_core (plat : Platform) (caption : String) (ec : Option String)
    (urls : List String) (ids : Nat → String) (ccid : String)
    (hn1 : 1 ≤ urls.length)
    (hc : ∀ j, j < urls.length → plat.containerResp j = .ok ⟨some (ids j)⟩)
    (hcar : plat.carouselResp = .ok ⟨some ccid⟩) :
    postBody plat caption urls ec =
      (phase1OkEvents urls 0 ++
         [Event.createCarouselCall (String.intercalate "," ((List.range urls.length).map ids))
            (effCaption caption ec), Event.wait 2000] ++
         (attemptPublish plat ccid 0 3 5000).1,
       match (attemptPublish plat ccid 0 3 5000).2 with
       | .ok pd => .ok ⟨true, pd.id, (List.range urls.length).map ids, ccid⟩
       | .error e =>
           .error ("Failed to publish carousel after multiple attempts: " ++ e.effMsg)) := by
  have hp1 := phase1_ok plat ids urls 0 (fun j hj => by simpa using hc j hj)
  simp only [Nat.zero_add] at hp1
  have hlen0 : ¬(((List.range urls.length).map ids).length == 0) = true := by
    simp only [List.length_map, List.length_range, beq_iff_eq]
    omega
  simp only [postBody, hp1, hlen0, Bool.false_eq_true, if_false, hcar]
  cases hp3 : (attemptPublish plat ccid 0 3 5000).2 with
  | ok pd => simp [hp3, List.append_assoc]
  | error e => simp [hp3, List.append_assoc]

/-- Missing (or empty) credentials abort before any event. -/
lemma run_creds_fail (env : Env) (plat : Platform) (caption : String)
    (urls : List String) (ec : Option String)
    (h : (!(present env.accessToken) || !(present env.igBusinessId)) = true) :
    postToInstagram env plat caption urls ec =
      ([], .error "Missing Instagram credentials in environment variables") := by
  simp [postToInstagram, h]

/-- With credentials present and 1–10 URLs the orchestrator is the body. -/
lemma run_ok_shape (env : Env) (plat : Platform) (caption : String)
    (urls : List String) (ec : Option String)
    (hA : present env.accessToken = true) (hB : present env.igBusinessId = true)
    (hn1 : 1 ≤ urls.length) (hn10 : urls.length ≤ 10) :
    postToInstagram env plat caption urls ec = postBody plat caption urls ec := by
  have h0 : ¬(urls.length == 0) = true := by simp only [beq_iff_eq]; omega
  have h10 : ¬(urls.length > 10) := by omega
  simp [postToInstagram, hA, hB, h0, h10]

/-- With credentials present and more than 10 URLs, the run is the warning
followed by the run on the first 10 URLs. -/
lemma run_truncate (env : Env) (plat : Platform) (caption : String)
    (urls : List String) (ec : Option String)
    (hA : present env.accessToken = true) (hB : present env.igBusinessId = true)
    (h10 : urls.length > 10) :
    postToInstagram env plat caption urls ec =
      (Event.truncWarn urls.length :: (postToInstagram env plat caption (urls.take 10) ec).1,
       (postToInstagram env plat caption (urls.take 10) ec).2) := by
  have hlen : (urls.take 10).length = 10 := by
    simp [List.length_take]
    omega
  rw [run_ok_shape env plat caption (urls.take 10) ec hA hB (by omega) (by omega)]
  have h0 : ¬(urls.length == 0) = true := by simp only [beq_iff_eq]; omega
  simp [postToInstagram, hA, hB, h0, h10]

/-- Phase 1 returns exactly one container id per input URL. -/
lemma phase1_length (plat : Platform) :
    ∀ (urls : List String) (i : Nat) (cids : List String),
      (phase1 plat urls i).2 = .ok cids → cids.length = urls.length := by
  intro urls
  induction urls with
  | nil => intro i cids h; simp [phase1] at h; simp [← h]
  | cons u rest ih =>
      intro i cids h
      cases hc : plat.containerResp i with
      | error err => simp [phase1, hc] at h
      | ok d =>
          cases hd : d.id with
          | none => simp [phase1, hc, hd] at h
          | some cid =>
              simp only [phase1, hc, hd] at h
              cases hr : (phase1 plat rest (i + 1)).2 with
              | error msg => rw [hr] at h; simp [Except.map] at h
              | ok tl =>
                  rw [hr] at h
                  simp only [Except.map, Except.ok.injEq] at h
                  rw [← h]
                  simp [ih (i + 1) tl hr]

/-- A string extending `p` on the right cannot equal a string `t` that does
not start with `p`. -/
lemma append_ne_left (p t : String) (h : ¬ p.data <+: t.data) (s : String) : p ++ s ≠ t := by
  intro heq
  apply h
  refine ⟨s.data, ?_⟩
  rw [← String.data_append, heq]

/-- If a phase-1 failure aborts the body, the trace has no phase-2 and no
phase-3 event. -/
lemma postBody_phase1_error (plat : Platform) (caption : String) (urls : List String)
    (ec : Option String) (msg : String) (hp1 : (phase1 plat urls 0).2 = .error msg) :
    postBody plat caption urls ec = ((phase1 plat urls 0).1, .error msg) := by
  simp only [postBody, hp1]

/-- Every container-creation call the body emits names one of its URLs. -/
lemma postBody_container_mem (plat : Platform) (caption : String) (urls : List String)
    (ec : Option String) (u : String)
    (hmem : Event.createContainerCall u ∈ (postBody plat caption urls ec).1) : u ∈ urls := by
  have ofPhase1 : Event.createContainerCall u ∈ (phase1 plat urls 0).1 → u ∈ urls := by
    intro hm
    rcases phase1_mem plat urls 0 _ hm with hw | ⟨u', hu', he⟩
    · exact absurd hw (by simp)
    · cases he
      exact hu'
  have ofPhase3 : ∀ cid, Event.createContainerCall u ∉ (attemptPublish plat cid 0 3 5000).1 := by
    intro cid hm
    rcases attemptPublish_mem plat cid 3 0 3 5000 (by omega) _ hm with ⟨q, hq⟩ | hq <;> simp at hq
  cases hp1 : (phase1 plat urls 0).2 with
  | error msg =>
      rw [postBody_phase1_error plat caption urls ec msg hp1] at hmem
      exact ofPhase1 hmem
  | ok cids =>
      by_cases hz : (cids.length == 0) = true
      · simp only [postBody, hp1, hz, if_true] at hmem
        exact ofPhase1 hmem
      · cases hcar : plat.carouselResp with
        | error e =>
            simp only [postBody, hp1, hz, Bool.false_eq_true, if_false, hcar] at hmem
            rcases List.mem_append.mp hmem with hm | hm
            · exact ofPhase1 hm
            · simp at hm
        | ok d =>
            cases hd : d.id with
            | none =>
                simp only [postBody, hp1, hz, Bool.false_eq_true, if_false, hcar, hd] at hmem
                rcases List.mem_append.mp hmem with hm | hm
                · exact ofPhase1 hm
                · simp at hm
            | some ccid =>
                simp only [postBody, hp1, hz, Bool.false_eq_true, if_false, hcar, hd] at hmem
                cases hp3 : (attemptPublish plat ccid 0 3 5000).2 <;>
                  · rw [hp3] at hmem
                    simp only [List.append_assoc] at hmem
                    rcases List.mem_append.mp hmem with hm | hm
                    · exact ofPhase1 hm
                    · exact absurd (by simpa using hm) (ofPhase3 ccid)

/-- The all-success phase-1 trace has no phase-2 or phase-3 event. -/
lemma phase1OkEvents_filter_none (urls : List String) (i : Nat)
    (p : Event → Bool) (hw : p (Event.wait 1000) = false)
    (hc : ∀ u, p (Event.createContainerCall u) = false) :
    (phase1OkEvents urls i).filter p = [] := by
  induction urls generalizing i with
  | nil => simp [phase1OkEvents]
  | cons u rest ih =>
      by_cases hi : i > 0 <;>
        simp [phase1OkEvents, hi, List.filter_append, hw, hc, ih]

/-- The phase-3 trace has no phase-1 or phase-2 event. -/
lemma attemptPublish_filter_none (plat : Platform) (cid : String) (r m : Nat) (d : ℚ)
    (p : Event → Bool) (hw : ∀ q, p (Event.wait q) = false)
    (hp : p (Event.publishCall cid) = false) :
    (attemptPublish plat cid r m d).1.filter p = [] := by
  rw [List.filter_eq_nil_iff]
  intro e he
  rcases attemptPublish_mem plat cid (m - r) r m d (by omega) e he with ⟨q, hq⟩ | hq
  · simp [hq, hw]
  · simp [hq, hp]

/-- A phase-1 failure at 1-based image index `k` aborts the body with the
message naming `k`, and the body's trace has no phase-2/phase-3 event. -/
lemma postBody_fail_at (plat : Platform) (caption : String) (urls : List String)
    (ec : Option String) (k : Nat) (e : ApiError)
    (hk1 : 1 ≤ k) (hklen : k - 1 < urls.length)
    (hok : ∀ j, j < k - 1 → ∃ cid, plat.containerResp j = .ok ⟨some cid⟩)
    (herr : plat.containerResp (k - 1) = .error e) :
    (postBody plat caption urls ec).2 =
      .error ("Failed to create container " ++ toString k ++ ": " ++ e.effMsg)
    ∧ ∀ ev ∈ (postBody plat caption urls ec).1, ev.isP2 = false ∧ ev.isP3 = false := by
  have hp1 := phase1_error plat e urls 0 (k - 1) hklen
    (fun j hj => by simpa using hok j hj) (by simpa using herr)
  rw [show (0 : Nat) + (k - 1) + 1 = k from by omega] at hp1
  rw [postBody_phase1_error plat caption urls ec _ hp1]
  refine ⟨rfl, ?_⟩
  intro ev hev
  rcases phase1_mem plat urls 0 ev hev with hw | ⟨u, _, he⟩
  · simp [hw, Event.isP2, Event.isP3]
  · simp [he, Event.isP2, Event.isP3]

/-- The body never reports the zero-containers error on a non-empty list. -/
lemma postBody_no_empty_err (plat : Platform) (caption : String) (urls : List String)
    (ec : Option String) (hne : urls ≠ []) :
    (postBody plat caption urls ec).2 ≠ .error "Failed to create any media containers" := by
  cases hp1 : (phase1 plat urls 0).2 with
  | error msg =>
      rw [postBody_phase1_error plat caption urls ec msg hp1]
      obtain ⟨s, hs⟩ := phase1_error_shape plat urls 0 msg hp1
      subst hs
      simp only [ne_eq, Except.error.injEq]
      exact append_ne_left _ _ (by decide) s
  | ok cids =>
      have hlen : cids.length = urls.length := phase1_length plat urls 0 cids hp1
      have hz : ¬(cids.length == 0) = true := by
        simp only [beq_iff_eq]
        intro h
        exact hne (List.length_eq_zero.mp (by omega))
      cases hcar : plat.carouselResp with
      | error e =>
          simp only [postBody, hp1, hz, Bool.false_eq_true, if_false, hcar, ne_eq,
            Except.error.injEq]
          exact append_ne_left _ _ (by decide) e.effMsg
      | ok d =>
          cases hd : d.id with
          | none =>
              simp only [postBody, hp1, hz, Bool.false_eq_true, if_false, hcar, hd, ne_eq,
                Except.error.injEq]
              decide
          | some ccid =>
              simp only [postBody, hp1, hz, Bool.false_eq_true, if_false, hcar, hd]
              cases hp3 : (attemptPublish plat ccid 0 3 5000).2 with
              | ok pd => simp
              | error e =>
                  simp only [ne_eq, Except.error.injEq]
                  exact append_ne_left _ _ (by decide) e.effMsg

/-! ## Claims -/

/-- Claim C5: if the access token or the destination account identifier is
absent, `postToInstagram` fails immediately with the configuration error
and makes no network call (its trace is empty); with both credentials
present but an empty media URL list, it fails with the validation error
and makes no network call. -/
theorem claim_C5 (env : Env) (plat : Platform) (caption : String) (urls : List String)
    (ec : Option String) :
    ((env.accessToken = none ∨ env.igBusinessId = none) →
      postToInstagram env plat caption urls ec =
        ([], .error "Missing Instagram credentials in environment variables"))
    ∧ (present env.accessToken = true → present env.igBusinessId = true →
        postToInstagram env plat caption [] ec =
          ([], .error "No media URLs provided for Instagram post")) := by
  constructor
  · intro h
    apply run_creds_fail
    rcases h with h | h <;> simp [h, present]
  · intro hA hB
    simp [postToInstagram, hA, hB]

/-- Witness for C5 at concrete inputs. -/
theorem claim_C5_witness :
    (postToInstagram ⟨none, some "big"⟩ okPlat "T" ["a"] none =
      ([], .error "Missing Instagram credentials in environment variables"))
    ∧ (postToInstagram ⟨some "tok", some "big"⟩ okPlat "T" [] none =
      ([], .error "No media URLs provided for Instagram post")) :=
  ⟨(claim_C5 ⟨none, some "big"⟩ okPlat "T" ["a"] none).1 (Or.inl rfl),
   (claim_C5 ⟨some "tok", some "big"⟩ okPlat "T" [] none).2 (by decide) (by decide)⟩

/-- Claim C4: if the phase-1 container creation for image `k` (1-based)
fails, the whole operation fails with an error naming image `k` and
carrying the platform's message when available (`effMsg`), and no phase-2
or phase-3 call is ever made. -/
theorem claim_C4 (env : Env) (plat : Platform) (caption : String) (urls : List String)
    (ec : Option String) (k : Nat) (e : ApiError)
    (hA : present env.accessToken = true) (hB : present env.igBusinessId = true)
    (hk1 : 1 ≤ k) (hk : k ≤ min urls.length 10)
    (hok : ∀ j, j < k - 1 → ∃ cid, plat.containerResp j = .ok ⟨some cid⟩)
    (herr : plat.containerResp (k - 1) = .error e) :
    (postToInstagram env plat caption urls ec).2 =
      .error ("Failed to create container " ++ toString k ++ ": " ++ e.effMsg)
    ∧ ∀ ev ∈ (postToInstagram env plat caption urls ec).1,
        ev.isP2 = false ∧ ev.isP3 = false := by
  by_cases h10 : urls.length > 10
  · have hlen : (urls.take 10).length = 10 := by
      simp [List.length_take]
      omega
    have hbody := postBody_fail_at plat caption (urls.take 10) ec k e hk1 (by omega) hok herr
    rw [run_truncate env plat caption urls ec hA hB h10,
        run_ok_shape env plat caption (urls.take 10) ec hA hB (by omega) (by omega)]
    refine ⟨hbody.1, ?_⟩
    intro ev hev
    rcases List.mem_cons.mp hev with hw | hm
    · simp [hw, Event.isP2, Event.isP3]
    · exact hbody.2 ev hm
  · have hn1 : 1 ≤ urls.length := by omega
    rw [run_ok_shape env plat caption urls ec hA hB hn1 (by omega)]
    exact postBody_fail_at plat caption urls ec k e hk1 (by omega) hok herr

/-- Witness for C4: the second container creation fails. -/
theorem claim_C4_witness :
    (postToInstagram ⟨some "tok", some "big"⟩ failPlat "T" ["a", "b", "c"] none).2 =
      .error ("Failed to create container " ++ toString 2 ++ ": " ++
        ApiError.effMsg ⟨some "boom", "axios bad"⟩)
    ∧ ∀ ev ∈ (postToInstagram ⟨some "tok", some "big"⟩ failPlat "T" ["a", "b", "c"] none).1,
        ev.isP2 = false ∧ ev.isP3 = false :=
  claim_C4 ⟨some "tok", some "big"⟩ failPlat "T" ["a", "b", "c"] none 2
    ⟨some "boom", "axios bad"⟩ (by decide) (by decide) (by omega) (by simp)
    (fun j hj => ⟨"x", by
      have hj0 : j = 0 := by omega
      subst hj0
      decide⟩)
    (by decide)

/-- Claim C8: whenever the phase-1 loop completes without error it returns
one container id per input URL, so on a non-empty URL list the
`Failed to create any media containers` branch is never taken. -/
theorem claim_C8 :
    (∀ (plat : Platform) (urls : List String) (i : Nat) (cids : List String),
        (phase1 plat urls i).2 = .ok cids → cids.length = urls.length)
    ∧ ∀ (env : Env) (plat : Platform) (caption : String) (urls : List String)
        (ec : Option String), urls ≠ [] →
        (postToInstagram env plat caption urls ec).2 ≠
          .error "Failed to create any media containers" := by
  refine ⟨phase1_length, ?_⟩
  intro env plat caption urls ec hne
  cases ha : present env.accessToken with
  | false =>
      rw [run_creds_fail env plat caption urls ec (by simp [ha])]
      simp only [ne_eq, Except.error.injEq]
      decide
  | true =>
      cases hb : present env.igBusinessId with
      | false =>
          rw [run_creds_fail env plat caption urls ec (by simp [hb])]
          simp only [ne_eq, Except.error.injEq]
          decide
      | true =>
          by_cases h10 : urls.length > 10
          · have hlen : (urls.take 10).length = 10 := by
              simp [List.length_take]
              omega
            rw [run_truncate env plat caption urls ec ha hb h10,
                run_ok_shape env plat caption (urls.take 10) ec ha hb (by omega) (by omega)]
            exact postBody_no_empty_err plat caption (urls.take 10) ec
              (by intro h; rw [h] at hlen; simp at hlen)
          · have hn1 : 1 ≤ urls.length := by
              cases urls with
              | nil => exact absurd rfl hne
              | cons u rest => simp
            rw [run_ok_shape env plat caption urls ec ha hb hn1 (by omega)]
            exact postBody_no_empty_err plat caption urls ec hne

/-- Witness for C8 at concrete inputs. -/
theorem claim_C8_witness :
    (["id1"] : List String).length = (["a"] : List String).length
    ∧ (postToInstagram ⟨some "tok", some "big"⟩ okPlat "T" ["a"] none).2 ≠
        .error "Failed to create any media containers" :=
  ⟨claim_C8.1 okPlat ["a"] 0 ["id1"] (by decide),
   claim_C8.2 ⟨some "tok", some "big"⟩ okPlat "T" ["a"] none (by simp)⟩

/-- Claim C1: with valid credentials, `1 ≤ n ≤ 10` URLs, phase 1 fully
succeeding and phase 2 returning a carousel id, the outgoing-call trace is
exactly `n` container-creation calls, one per URL in input order, then one
carousel-creation call carrying the comma-joined collected ids, then
between 1 and `maxRetries + 1 = 4` publish calls, strictly in that phase
order; and phase 1 collects the response ids in input order. -/
theorem claim_C1 (env : Env) (plat : Platform) (caption : String) (urls : List String)
    (ec : Option String) (ids : Nat → String) (ccid : String)
    (hA : present env.accessToken = true) (hB : present env.igBusinessId = true)
    (hn1 : 1 ≤ urls.length) (hn10 : urls.length ≤ 10)
    (hc : ∀ j, j < urls.length → plat.containerResp j = .ok ⟨some (ids j)⟩)
    (hcar : plat.carouselResp = .ok ⟨some ccid⟩) :
    ∃ k, k ≤ 3 ∧ ∃ cap,
      (postToInstagram env plat caption urls ec).1.filter Event.isCall =
        urls.map Event.createContainerCall
          ++ [Event.createCarouselCall
                (String.intercalate "," ((List.range urls.length).map ids)) cap]
          ++ List.replicate (k + 1) (Event.publishCall ccid)
      ∧ (phase1 plat urls 0).2 = .ok ((List.range urls.length).map ids) := by
  have hp1 := phase1_ok plat ids urls 0 (fun j hj => by simpa using hc j hj)
  simp only [Nat.zero_add] at hp1
  obtain ⟨k, hk, hfil⟩ := attemptPublish_filter_isCall plat ccid 3 0 3 5000 (by omega)
  refine ⟨k, by omega, effCaption caption ec, ?_, by rw [hp1]⟩
  rw [run_ok_shape env plat caption urls ec hA hB hn1 hn10,
      postBody_core plat caption ec urls ids ccid hn1 hc hcar]
  simp only [List.filter_append, phase1OkEvents_filter_isCall, hfil]
  simp [Event.isCall]

/-- Witness for C1 at concrete inputs. -/
theorem claim_C1_witness :
    ∃ k, k ≤ 3 ∧ ∃ cap,
      (postToInstagram ⟨some "tok", some "big"⟩ okPlat "T" ["a", "b"] none).1.filter
          Event.isCall =
        (["a", "b"] : List String).map Event.createContainerCall
          ++ [Event.createCarouselCall
                (String.intercalate ","
                  ((List.range (["a", "b"] : List String).length).map
                    fun i => "id" ++ toString (i + 1))) cap]
          ++ List.replicate (k + 1) (Event.publishCall "cid")
      ∧ (phase1 okPlat ["a", "b"] 0).2 =
          .ok ((List.range (["a", "b"] : List String).length).map
            fun i => "id" ++ toString (i + 1)) :=
  claim_C1 ⟨some "tok", some "big"⟩ okPlat "T" ["a", "b"] none
    (fun i => "id" ++ toString (i + 1)) "cid" (by decide) (by decide) (by simp) (by simp)
    (fun j _ => rfl) rfl

/-- Claim C2: when all three phases succeed (phase 3 after `k ≤ 3`
transient failures) and the publish response carries id `p`, the result is
`success = true` with `postId = some p` (so `postId` is present), the
phase-1 ids in input order, and the phase-2 carousel id. -/
theorem claim_C2 (env : Env) (plat : Platform) (caption : String) (urls : List String)
    (ec : Option String) (ids : Nat → String) (ccid p : String) (k : Nat)
    (hA : present env.accessToken = true) (hB : present env.igBusinessId = true)
    (hn1 : 1 ≤ urls.length)
    (hc : ∀ j, j < min urls.length 10 → plat.containerResp j = .ok ⟨some (ids j)⟩)
    (hcar : plat.carouselResp = .ok ⟨some ccid⟩)
    (hk : k ≤ 3) (hpub : plat.publishResp k = .ok ⟨some p⟩)
    (htr : ∀ j, j < k → ∃ e, plat.publishResp j = .error e ∧ isUnknownError e = true) :
    (postToInstagram env plat caption urls ec).2 =
      .ok ⟨true, some p, (List.range (min urls.length 10)).map ids, ccid⟩ := by
  have hsucc : (attemptPublish plat ccid 0 3 5000).2 = .ok ⟨some p⟩ :=
    attemptPublish_ok plat ccid ⟨some p⟩ k 0 3 5000 (by omega) (by simpa using hpub)
      (fun j hj => by simpa using htr j hj)
  by_cases h10 : urls.length > 10
  · have hmin : min urls.length 10 = 10 := by omega
    have hlen : (urls.take 10).length = 10 := by
      simp [List.length_take]
      omega
    rw [run_truncate env plat caption urls ec hA hB h10,
        run_ok_shape env plat caption (urls.take 10) ec hA hB (by omega) (by omega),
        postBody_core plat caption ec (urls.take 10) ids ccid (by omega)
          (fun j hj => hc j (by omega)) hcar]
    simp only [hsucc, hlen, hmin]
  · have hmin : min urls.length 10 = urls.length := by omega
    rw [run_ok_shape env plat caption urls ec hA hB hn1 (by omega),
        postBody_core plat caption ec urls ids ccid hn1
          (fun j hj => hc j (by omega)) hcar]
    simp only [hsucc, hmin]

/-- Witness for C2: success on the 4th publish attempt. -/
theorem claim_C2_witness :
    (postToInstagram ⟨some "tok", some "big"⟩ retryPlat "T" ["a", "b"] none).2 =
      .ok ⟨true, some "pid",
        (List.range (min (["a", "b"] : List String).length 10)).map (fun _ => "x"), "cid"⟩ :=
  claim_C2 ⟨some "tok", some "big"⟩ retryPlat "T" ["a", "b"] none (fun _ => "x") "cid" "pid" 3
    (by decide) (by decide) (by simp) (fun j _ => rfl) rfl (by omega) (by decide)
    (fun j hj => ⟨transientErr, by simp [retryPlat, hj], by decide⟩)

/-- Claim C3: phase 3 waits before every publish attempt including the
first, grows the delay by the factor 1.5 on each retry (5000, 7500, 11250,
16875 ms: strictly increasing), and retries only failures classified
transient by the "unknown error" substring test, up to 3 retries: three
transient failures followed by a success give success with exactly 4
calls; a non-transient failure gives exactly 1 call and surfaces
immediately; exhausting the budget surfaces the last error. -/
theorem claim_C3 (p1 p2 p3 : Platform) (c1 c2 c3 : String) (d : RespData)
    (e1 : Nat → ApiError) (e2 : ApiError) (e3 : Nat → ApiError)
    (h1a : ∀ j, j < 3 → p1.publishResp j = .error (e1 j) ∧ isUnknownError (e1 j) = true)
    (h1b : p1.publishResp 3 = .ok d)
    (h2a : p2.publishResp 0 = .error e2) (h2b : isUnknownError e2 = false)
    (h3 : ∀ j, j ≤ 3 → p3.publishResp j = .error (e3 j) ∧ isUnknownError (e3 j) = true) :
    attemptPublish p1 c1 0 3 5000 =
      ([.wait 5000, .publishCall c1, .wait 7500, .publishCall c1, .wait 11250,
        .publishCall c1, .wait 16875, .publishCall c1], .ok d)
    ∧ attemptPublish p2 c2 0 3 5000 = ([.wait 5000, .publishCall c2], .error e2)
    ∧ attemptPublish p3 c3 0 3 5000 =
      ([.wait 5000, .publishCall c3, .wait 7500, .publishCall c3, .wait 11250,
        .publishCall c3, .wait 16875, .publishCall c3], .error (e3 3)) := by
  have d1 : (5000 : ℚ) * (3 / 2) = 7500 := by norm_num
  have d2 : (7500 : ℚ) * (3 / 2) = 11250 := by norm_num
  have d3 : (11250 : ℚ) * (3 / 2) = 16875 := by norm_num
  refine ⟨?_, ?_, ?_⟩
  · rw [attemptPublish_retry p1 c1 0 3 5000 (e1 0) (h1a 0 (by omega)).1 (by omega)
        (h1a 0 (by omega)).2, d1,
      attemptPublish_retry p1 c1 1 3 7500 (e1 1) (h1a 1 (by omega)).1 (by omega)
        (h1a 1 (by omega)).2, d2,
      attemptPublish_retry p1 c1 2 3 11250 (e1 2) (h1a 2 (by omega)).1 (by omega)
        (h1a 2 (by omega)).2, d3,
      attemptPublish_ok_resp p1 c1 3 3 16875 d h1b]
    simp
  · rw [attemptPublish_halt p2 c2 0 3 5000 e2 h2a
      (fun hcontra => by rw [h2b] at hcontra; exact absurd hcontra.2 (by simp))]
  · rw [attemptPublish_retry p3 c3 0 3 5000 (e3 0) (h3 0 (by omega)).1 (by omega)
        (h3 0 (by omega)).2, d1,
      attemptPublish_retry p3 c3 1 3 7500 (e3 1) (h3 1 (by omega)).1 (by omega)
        (h3 1 (by omega)).2, d2,
      attemptPublish_retry p3 c3 2 3 11250 (e3 2) (h3 2 (by omega)).1 (by omega)
        (h3 2 (by omega)).2, d3,
      attemptPublish_halt p3 c3 3 3 16875 (e3 3) (h3 3 (by omega)).1
        (fun hcontra => absurd hcontra.1 (by omega))]
    simp

/-- Witness for C3 at concrete platforms. -/
theorem claim_C3_witness :
    attemptPublish retryPlat "c" 0 3 5000 =
      ([.wait 5000, .publishCall "c", .wait 7500, .publishCall "c", .wait 11250,
        .publishCall "c", .wait 16875, .publishCall "c"], .ok ⟨some "pid"⟩)
    ∧ attemptPublish fatalPlat "c" 0 3 5000 =
      ([.wait 5000, .publishCall "c"], .error permanentErr)
    ∧ attemptPublish exhaustPlat "c" 0 3 5000 =
      ([.wait 5000, .publishCall "c", .wait 7500, .publishCall "c", .wait 11250,
        .publishCall "c", .wait 16875, .publishCall "c"], .error transientErr) :=
  claim_C3 retryPlat fatalPlat exhaustPlat "c" "c" "c" ⟨some "pid"⟩
    (fun _ => transientErr) permanentErr (fun _ => transientErr)
    (fun j hj => ⟨by simp [retryPlat, hj],
      show isUnknownError transientErr = true by decide⟩) (by decide) rfl (by decide)
    (fun j _ => ⟨rfl, show isUnknownError transientErr = true by decide⟩)

/-- Claim C6: with more than 10 URLs the run returns the same result and
makes the same outgoing calls as on the first 10 URLs, emits the
truncation warning (when credentials allow it to get that far) rather than
failing, and no container-creation call ever names a URL beyond the first
10. -/
theorem claim_C6 (env : Env) (plat : Platform) (caption : String) (urls : List String)
    (ec : Option String) (h10 : urls.length > 10) :
    (postToInstagram env plat caption urls ec).2 =
        (postToInstagram env plat caption (urls.take 10) ec).2
    ∧ (postToInstagram env plat caption urls ec).1.filter Event.isCall =
        (postToInstagram env plat caption (urls.take 10) ec).1.filter Event.isCall
    ∧ (∀ u, Event.createContainerCall u ∈ (postToInstagram env plat caption urls ec).1 →
        u ∈ urls.take 10)
    ∧ (present env.accessToken = true → present env.igBusinessId = true →
        Event.truncWarn urls.length ∈ (postToInstagram env plat caption urls ec).1) := by
  cases ha : present env.accessToken with
  | false =>
      have hcred : (!(present env.accessToken) || !(present env.igBusinessId)) = true := by
        simp [ha]
      rw [run_creds_fail env plat caption urls ec hcred,
          run_creds_fail env plat caption (urls.take 10) ec hcred]
      refine ⟨rfl, rfl, ?_, ?_⟩
      · intro u hu
        simp at hu
      · intro hA
        simp at hA
  | true =>
      cases hb : present env.igBusinessId with
      | false =>
          have hcred : (!(present env.accessToken) || !(present env.igBusinessId)) = true := by
            simp [hb]
          rw [run_creds_fail env plat caption urls ec hcred,
              run_creds_fail env plat caption (urls.take 10) ec hcred]
          refine ⟨rfl, rfl, ?_, ?_⟩
          · intro u hu
            simp at hu
          · intro _ hB
            simp at hB
      | true =>
          have hlen : (urls.take 10).length = 10 := by
            simp [List.length_take]
            omega
          rw [run_truncate env plat caption urls ec ha hb h10]
          refine ⟨rfl, by simp [Event.isCall], ?_, fun _ _ => by simp⟩
          intro u hu
          rcases List.mem_cons.mp hu with h | h
          · simp at h
          · rw [run_ok_shape env plat caption (urls.take 10) ec ha hb (by omega) (by omega)] at h
            exact postBody_container_mem plat caption (urls.take 10) ec u h

/-- Witness for C6 with 12 URLs: the 11th and 12th never reach a call. -/
theorem claim_C6_witness :
    (postToInstagram ⟨some "tok", some "big"⟩ okPlat "T"
        ["u1", "u2", "u3", "u4", "u5", "u6", "u7", "u8", "u9", "u10", "u11", "u12"] none).2 =
      (postToInstagram ⟨some "tok", some "big"⟩ okPlat "T"
        (["u1", "u2", "u3", "u4", "u5", "u6", "u7", "u8", "u9", "u10", "u11", "u12"].take 10)
        none).2
    ∧ (postToInstagram ⟨some "tok", some "big"⟩ okPlat "T"
        ["u1", "u2", "u3", "u4", "u5", "u6", "u7", "u8", "u9", "u10", "u11", "u12"]
        none).1.filter Event.isCall =
      (postToInstagram ⟨some "tok", some "big"⟩ okPlat "T"
        (["u1", "u2", "u3", "u4", "u5", "u6", "u7", "u8", "u9", "u10", "u11", "u12"].take 10)
        none).1.filter Event.isCall
    ∧ (∀ u, Event.createContainerCall u ∈ (postToInstagram ⟨some "tok", some "big"⟩ okPlat "T"
        ["u1", "u2", "u3", "u4", "u5", "u6", "u7", "u8", "u9", "u10", "u11", "u12"] none).1 →
        u ∈ ["u1", "u2", "u3", "u4", "u5", "u6", "u7", "u8", "u9", "u10", "u11", "u12"].take 10)
    ∧ (present (some "tok") = true → present (some "big") = true →
        Event.truncWarn
          (["u1", "u2", "u3", "u4", "u5", "u6", "u7", "u8", "u9", "u10", "u11", "u12"]
            : List String).length ∈
          (postToInstagram ⟨some "tok", some "big"⟩ okPlat "T"
            ["u1", "u2", "u3", "u4", "u5", "u6", "u7", "u8", "u9", "u10", "u11", "u12"]
            none).1) :=
  claim_C6 ⟨some "tok", some "big"⟩ okPlat "T"
    ["u1", "u2", "u3", "u4", "u5", "u6", "u7", "u8", "u9", "u10", "u11", "u12"] none (by simp)

/-- The body issues exactly one phase-2 call, carrying the comma-joined
ordered phase-1 ids and the effective caption. -/
lemma postBody_filter_isP2 (plat : Platform) (caption : String) (ec : Option String)
    (urls : List String) (ids : Nat → String)
    (hn1 : 1 ≤ urls.length)
    (hc : ∀ j, j < urls.length → plat.containerResp j = .ok ⟨some (ids j)⟩) :
    (postBody plat caption urls ec).1.filter Event.isP2 =
      [Event.createCarouselCall (String.intercalate "," ((List.range urls.length).map ids))
        (effCaption caption ec)] := by
  have hp1 := phase1_ok plat ids urls 0 (fun j hj => by simpa using hc j hj)
  simp only [Nat.zero_add] at hp1
  have hlen0 : ¬(((List.range urls.length).map ids).length == 0) = true := by
    simp only [List.length_map, List.length_range, beq_iff_eq]
    omega
  have hfil1 : (phase1OkEvents urls 0).filter Event.isP2 = [] :=
    phase1OkEvents_filter_none urls 0 Event.isP2 rfl (fun u => rfl)
  cases hcar : plat.carouselResp with
  | error e =>
      simp only [postBody, hp1, hlen0, Bool.false_eq_true, if_false, hcar]
      simp [List.filter_append, hfil1, Event.isP2]
  | ok d =>
      cases hd : d.id with
      | none =>
          simp only [postBody, hp1, hlen0, Bool.false_eq_true, if_false, hcar, hd]
          simp [List.filter_append, hfil1, Event.isP2]
      | some ccid =>
          have hfil3 : (attemptPublish plat ccid 0 3 5000).1.filter Event.isP2 = [] :=
            attemptPublish_filter_none plat ccid 0 3 5000 Event.isP2 (fun q => rfl) rfl
          simp only [postBody, hp1, hlen0, Bool.false_eq_true, if_false, hcar, hd]
          cases hp3 : (attemptPublish plat ccid 0 3 5000).2 <;>
            simp [hp3, List.filter_append, hfil1, hfil3, Event.isP2]

/-- Claim C7 as amended: the unique phase-2 request carries the full
ordered comma-joined list of phase-1 container ids and the effective
caption, where a non-empty enhanced caption takes precedence over the
plain caption and an empty or missing enhanced caption falls back to the
plain caption. -/
theorem claim_C7_amended (env : Env) (plat : Platform) (caption : String)
    (urls : List String) (ec : Option String) (ids : Nat → String)
    (hA : present env.accessToken = true) (hB : present env.igBusinessId = true)
    (hn1 : 1 ≤ urls.length) (hn10 : urls.length ≤ 10)
    (hc : ∀ j, j < urls.length → plat.containerResp j = .ok ⟨some (ids j)⟩) :
    (postToInstagram env plat caption urls ec).1.filter Event.isP2 =
      [Event.createCarouselCall (String.intercalate "," ((List.range urls.length).map ids))
        (effCaption caption ec)]
    ∧ (∀ c, ec = some c → c.isEmpty = false → effCaption caption ec = c)
    ∧ (ec = none → effCaption caption ec = caption)
    ∧ (ec = some "" → effCaption caption ec = caption) := by
  refine ⟨?_, ?_, ?_, ?_⟩
  · rw [run_ok_shape env plat caption urls ec hA hB hn1 hn10]
    exact postBody_filter_isP2 plat caption ec urls ids hn1 hc
  · intro c hec hne
    simp [effCaption, hec, hne]
  · intro hec
    simp [effCaption, hec]
  · intro hec
    rw [hec]
    rfl

/-- Counterexample to C7 as stated: with the enhanced caption provided as
the empty string, the phase-2 request carries the plain caption, not the
provided enhanced caption. -/
theorem claim_C7_counterexample :
    (postToInstagram ⟨some "tok", some "big"⟩ okPlat "plain" ["a"] (some "")).1.filter
        Event.isP2 = [Event.createCarouselCall "id1" "plain"]
    ∧ "plain" ≠ "" := by
  refine ⟨by decide, by decide⟩

/-- Witness for the amended C7 at concrete inputs. -/
theorem claim_C7_witness :
    (postToInstagram ⟨some "tok", some "big"⟩ okPlat "plain" ["a", "b"] (some "enh")).1.filter
        Event.isP2 =
      [Event.createCarouselCall
        (String.intercalate ","
          ((List.range (["a", "b"] : List String).length).map
            fun i => "id" ++ toString (i + 1)))
        (effCaption "plain" (some "enh"))]
    ∧ (∀ c, (some "enh" : Option String) = some c → c.isEmpty = false →
        effCaption "plain" (some "enh") = c)
    ∧ ((some "enh" : Option String) = none → effCaption "plain" (some "enh") = "plain")
    ∧ ((some "enh" : Option String) = some "" → effCaption "plain" (some "enh") = "plain") :=
  claim_C7_amended ⟨some "tok", some "big"⟩ okPlat "plain" ["a", "b"] (some "enh")
    (fun i => "id" ++ toString (i + 1)) (by decide) (by decide) (by simp) (by simp)
    (fun j _ => rfl)

/-- The content-slide loop returns one URL per slide, in input order, when
every upload succeeds. -/
lemma contentUploads_ok (upload : SlideSpec → Except String String) (su : Nat → String) :
    ∀ (sl : List String) (total i : Nat),
      (∀ j (hj : j < sl.length),
        upload (.content (sl.get ⟨j, hj⟩) (i + j + 1) total) = .ok (su (i + j))) →
      contentUploads upload sl total i =
        .ok ((List.range sl.length).map fun j => su (i + j)) := by
  intro sl
  induction sl with
  | nil => intro total i _; simp [contentUploads]
  | cons s rest ih =>
      intro total i h
      have h0 : upload (.content s (i + 1) total) = .ok (su i) := by
        have := h 0 (by simp)
        simpa using this
      have hrec := ih total (i + 1) (fun j hj => by
        have hj1 := h (j + 1) (by simpa using Nat.succ_lt_succ hj)
        have e1 : i + 1 + j + 1 = i + (j + 1) + 1 := by omega
        have e2 : i + 1 + j = i + (j + 1) := by omega
        rw [e1, e2]
        simpa using hj1)
      simp only [contentUploads, h0, hrec, bind, Except.bind, List.length_cons,
        List.range_succ_eq_map, List.map_cons, List.map_map, Function.comp_def,
        Nat.add_zero, pure, Except.pure]
      refine congrArg Except.ok (congrArg (List.cons (su i)) ?_)
      exact List.map_congr_left fun x _ => congrArg su (by omega)

/-- Claim C9: a successful `createCarousel` run on `m` slides returns
`m + 2` URLs, ordered cover first, then one per content slide in input
order, then the CTA image last. -/
theorem claim_C9 (upload : SlideSpec → Except String String) (title : String)
    (slides : List String) (cta : String) (cu au : String) (su : Nat → String)
    (hcov : upload (.cover title) = .ok cu)
    (hsl : ∀ j (hj : j < slides.length),
      upload (.content (slides.get ⟨j, hj⟩) (j + 1) slides.length) = .ok (su j))
    (hcta : upload (.ctaSlide cta slides.length) = .ok au) :
    createCarousel upload title slides cta =
      .ok (cu :: (List.range slides.length).map su ++ [au])
    ∧ (cu :: (List.range slides.length).map su ++ [au]).length = slides.length + 2 := by
  have hcont := contentUploads_ok upload su slides slides.length 0
    (fun j hj => by simpa using hsl j hj)
  simp only [Nat.zero_add] at hcont
  refine ⟨?_, by simp⟩
  simp [createCarousel, hcov, hcont, hcta, bind, Except.bind, pure, Except.pure]

/-- A rendering/upload oracle returning one URL per slide kind. -/
def demoUpload : SlideSpec → Except String String
  | .cover _ => .ok "cov"
  | .content _ n _ => .ok ("s" ++ toString n)
  | .ctaSlide _ _ => .ok "cta"

/-- Witness for C9 at concrete inputs. -/
theorem claim_C9_witness :
    createCarousel demoUpload "T" ["x", "y"] "C" =
      .ok ("cov" :: (List.range (["x", "y"] : List String).length).map
        (fun j => "s" ++ toString (j + 1)) ++ ["cta"])
    ∧ ("cov" :: (List.range (["x", "y"] : List String).length).map
        (fun j => "s" ++ toString (j + 1)) ++ ["cta"]).length =
      (["x", "y"] : List String).length + 2 :=
  claim_C9 demoUpload "T" ["x", "y"] "C" "cov" "cta" (fun j => "s" ++ toString (j + 1))
    rfl (fun _ _ => rfl) rfl

/-- `findIdx?` on a list with no match. -/
lemma findIdx?_none {α : Type} (p : α → Bool) :
    ∀ l : List α, (∀ x ∈ l, p x = false) → l.findIdx? p = none := by
  intro l
  induction l with
  | nil => intro _; rfl
  | cons a l ih =>
      intro h
      rw [List.findIdx?_cons]
      simp [h a (by simp), ih (fun x hx => h x (by simp [hx]))]

/-- `findIdx?` finds the first matching index. -/
lemma findIdx?_first {α : Type} (p : α → Bool) :
    ∀ (l : List α) (j : Nat) (hj : j < l.length),
      p (l.get ⟨j, hj⟩) = true →
      (∀ j' (hj' : j' < j), p (l.get ⟨j', Nat.lt_trans hj' hj⟩) = false) →
      l.findIdx? p = some j := by
  intro l
  induction l with
  | nil => intro j hj; simp at hj
  | cons a l ih =>
      intro j hj hp hfirst
      cases j with
      | zero =>
          rw [List.findIdx?_cons]
          simpa using hp
      | succ j' =>
          have ha : p a = false := by
            have := hfirst 0 (Nat.succ_pos j')
            simpa using this
          rw [List.findIdx?_cons, ha]
          have := ih j' (by simpa using Nat.lt_of_succ_lt_succ hj) (by simpa using hp)
            (fun i hi => by
              have := hfirst (i + 1) (Nat.succ_lt_succ hi)
              simpa using this)
          simp [this]

/-- Claim C10: `markPostAsPublished` with an unmatched id returns `false`,
leaves the schedule state fully unchanged, and writes nothing; with a
matched id it sets exactly the first matching post's `status` to
`"published"`, keeps every other post and every other field of the matched
post unchanged, and saves — the save also refreshing
`metadata.updatedAt` to the current time, the only change outside the
posts. -/
theorem claim_C10 (cs : ContentSchedule) (postId now : String) :
    ((∀ post ∈ cs.schedule, post.id ≠ postId) →
      markPostAsPublished (some cs) postId now = (false, some cs, false))
    ∧ ∀ j (hj : j < cs.schedule.length),
        (cs.schedule.get ⟨j, hj⟩).id = postId →
        (∀ j' (hj' : j' < j), (cs.schedule.get ⟨j', Nat.lt_trans hj' hj⟩).id ≠ postId) →
        markPostAsPublished (some cs) postId now =
          (true,
           some { cs with
             metadata := { cs.metadata with updatedAt := now },
             schedule :=
               cs.schedule.set j { cs.schedule.get ⟨j, hj⟩ with status := "published" } },
           true) := by
  constructor
  · intro hno
    have hfind : cs.schedule.findIdx? (fun post => post.id == postId) = none :=
      findIdx?_none _ _ (fun x hx => by simp [hno x hx])
    simp [markPostAsPublished, hfind]
  · intro j hj hmatch hfirst
    have hfind : cs.schedule.findIdx? (fun post => post.id == postId) = some j :=
      findIdx?_first _ cs.schedule j hj (by simpa using hmatch)
        (fun j' hj' => by simpa using hfirst j' hj')
    simp only [markPostAsPublished, hfind, saveContentSchedule]
    rw [List.modify_eq_set_get _ hj]

/-- A concrete two-post schedule. -/
def demoSchedule : ContentSchedule :=
  ⟨⟨"2025-01-06", "2025-01-12", "2025-01-01", "2025-01-01", 2⟩,
   [⟨"post-1", "2025-01-06", "09:00", "carousel", "myths", "scheduled",
      ⟨"T1", ["s1"], "cta1", "cap1"⟩⟩,
    ⟨"post-2", "2025-01-07", "09:00", "carousel", "tips", "scheduled",
      ⟨"T2", ["s2"], "cta2", "cap2"⟩⟩]⟩

/-- Witness for C10: an unmatched id, then matching the second post (the
save stamps `metadata.updatedAt` with the current time). -/
theorem claim_C10_witness :
    markPostAsPublished (some demoSchedule) "missing" "2025-02-01T08:00:00.000Z" =
      (false, some demoSchedule, false)
    ∧ markPostAsPublished (some demoSchedule) "post-2" "2025-02-01T08:00:00.000Z" =
      (true,
       some ⟨⟨"2025-01-06", "2025-01-12", "2025-01-01", "2025-02-01T08:00:00.000Z", 2⟩,
         [⟨"post-1", "2025-01-06", "09:00", "carousel", "myths", "scheduled",
            ⟨"T1", ["s1"], "cta1", "cap1"⟩⟩,
          ⟨"post-2", "2025-01-07", "09:00", "carousel", "tips", "published",
            ⟨"T2", ["s2"], "cta2", "cap2"⟩⟩]⟩,
       true) :=
  ⟨(claim_C10 demoSchedule "missing" "2025-02-01T08:00:00.000Z").1 (by decide),
   (claim_C10 demoSchedule "post-2" "2025-02-01T08:00:00.000Z").2 1 (by decide) (by decide)
     (fun j' hj' => by
        have hj0 : j' = 0 := by omega
        subst hj0
        exact (by decide : (demoSchedule.schedule.get
          ⟨0, Nat.zero_lt_succ 1⟩).id ≠ "post-2"))⟩

end Insta
